import Mathlib

/-!
Verification of the RentHub rental-platform KYC and phone-OTP core.

The definitions below are a shallow embedding of:
  * `src/utils/phoneValidation.ts`  (validateIndianPhoneNumber),
  * `src/services/otpService.ts`    (OTPService.checkRateLimit / updateRateLimit),
  * the `send-otp` / `verify-otp` edge functions (provider fallback chains),
  * the SQL stored procedures `process_kyc_approval`, `create_notification`,
    `verify_phone_otp` and the `kyc_verifications` schema from
    `supabase/migrations/20251002044629_20251002_complete_rental_platform_schema.sql`,
  * `src/services/kycService.ts`    (createKYCSubmission upsert, resetKYCForResubmission).

JavaScript strings are modelled as `List Char`, timestamps as `Int` milliseconds
(the code compares `Date.getTime()` values), database rows as structures and
tables as lists of rows.  Stored procedures run in a single transaction, so they
are modelled as pure functions returning `Except`: an error leaves the state
unchanged (all-or-nothing).
-/

namespace RentHub

/-! ## Phone validator (`src/utils/phoneValidation.ts`) -/

/-- Characters removed by the normalization step of `validateIndianPhoneNumber`:
the code strips all whitespace and all hyphens (two global replace calls)
before matching. -/
def isStrippedChar (c : Char) : Bool :=
  c = ' ' || c = '\t' || c = '\n' || c = '\r' || c = '-'

/-- The character class `[6-9]` of `INDIAN_PHONE_REGEX`. -/
def isSixToNine (c : Char) : Bool :=
  c = '6' || c = '7' || c = '8' || c = '9'

/-- `INDIAN_PHONE_REGEX = /^[6-9]\d{9}$/` applied to a candidate 10-digit body. -/
def bodyOK : List Char → Bool
  | [] => false
  | c :: rest => isSixToNine c && rest.length == 9 && rest.all Char.isDigit

/-- Result record of `validateIndianPhoneNumber`. -/
structure PhoneValidationResult where
  isValid : Bool
  formatted : Option (List Char)
  error : Option (List Char)
deriving DecidableEq, Repr

/-- Error message of the `+91`-prefixed branch. -/
def errPlus91 : List Char :=
  "Invalid Indian phone number. Must be 10 digits starting with 6-9.".toList

/-- Error message of the final catch-all branch. -/
def errGeneric : List Char :=
  "Invalid phone number format. Enter 10 digits starting with 6-9.".toList

/-- The normalization step: strip whitespace and hyphens. -/
def cleanPhone (phone : List Char) : List Char :=
  phone.filter (fun c => !isStrippedChar c)

/-- Shallow embedding of `validateIndianPhoneNumber`.  The source returns early
inside the `91`-prefixed branch only when the body matches; on a failing body it
falls through to the bare 10-digit check (which cannot match a 12-character
string) and then to the final error, which is what the flattened conditional
below computes. -/
def validateIndianPhoneNumber (phone : List Char) : PhoneValidationResult :=
  let cleaned := cleanPhone phone
  if cleaned.take 3 = ['+', '9', '1'] then
    let number := cleaned.drop 3
    if bodyOK number then
      { isValid := true, formatted := some (['+', '9', '1'] ++ number), error := none }
    else
      { isValid := false, formatted := none, error := some errPlus91 }
  else if cleaned.take 2 = ['9', '1'] ∧ cleaned.length = 12 ∧ bodyOK (cleaned.drop 2) then
    { isValid := true, formatted := some (['+', '9', '1'] ++ cleaned.drop 2), error := none }
  else if cleaned.length = 10 ∧ bodyOK cleaned then
    { isValid := true, formatted := some (['+', '9', '1'] ++ cleaned), error := none }
  else
    { isValid := false, formatted := none, error := some errGeneric }

/-- The 10-digit body selected by the accepted input shapes: after `+91` strip
the prefix, after a bare `91` on a 12-character input strip the `91`, otherwise
the whole cleaned input is the candidate body. -/
def normBody (c : List Char) : List Char :=
  if c.take 3 = ['+', '9', '1'] then c.drop 3
  else if c.take 2 = ['9', '1'] ∧ c.length = 12 then c.drop 2
  else c

/-- An optional error message is absent or non-empty. -/
def errNonempty : Option (List Char) → Prop
  | none => True
  | some e => e ≠ []

theorem bodyOK_length {b : List Char} (h : bodyOK b = true) : b.length = 10 := by
  cases b with
  | nil => simp [bodyOK] at h
  | cons c rest =>
    simp only [bodyOK, Bool.and_eq_true, beq_iff_eq] at h
    simp [h.1.2]

/-- Claim C3: `validateIndianPhoneNumber` implements the section 4.1 contract.
After stripping whitespace and hyphens, the candidate 10-digit body is selected
by the accepted shape (`+91`-prefixed, bare `91`-prefixed 12-digit, or the bare
input); if it matches `[6-9]` followed by 9 digits the result is valid with the
canonical `+91` form of that body (hence all three shapes of one number give
the same canonical output); otherwise the result is invalid with a non-empty
error message and no formatted value. -/
theorem phone_validator_contract (phone : List Char) :
    ((validateIndianPhoneNumber phone).isValid = bodyOK (normBody (cleanPhone phone)))
    ∧ ((validateIndianPhoneNumber phone).formatted =
        if bodyOK (normBody (cleanPhone phone)) then
          some (['+', '9', '1'] ++ normBody (cleanPhone phone))
        else none)
    ∧ errNonempty (validateIndianPhoneNumber phone).error
    ∧ ((validateIndianPhoneNumber phone).error = none
        ↔ (validateIndianPhoneNumber phone).isValid = true) := by
  have hP : errPlus91 ≠ [] := by decide
  have hG : errGeneric ≠ [] := by decide
  by_cases h1 : (cleanPhone phone).take 3 = ['+', '9', '1']
  · by_cases h2 : bodyOK ((cleanPhone phone).drop 3) = true
    · simp [validateIndianPhoneNumber, normBody, h1, h2, errNonempty]
    · simp [validateIndianPhoneNumber, normBody, h1, h2, errNonempty, hP]
  · by_cases h92 : (cleanPhone phone).take 2 = ['9', '1'] ∧ (cleanPhone phone).length = 12
    · by_cases hB2 : bodyOK ((cleanPhone phone).drop 2) = true
      · simp [validateIndianPhoneNumber, normBody, h1, h92, h92.1, h92.2, hB2, errNonempty]
      · have h10 : ¬ ((cleanPhone phone).length = 10 ∧ bodyOK (cleanPhone phone) = true) := by
          intro h
          obtain ⟨hl, _⟩ := h
          have hl12 := h92.2
          omega
        have hcond : ¬ ((cleanPhone phone).take 2 = ['9', '1'] ∧ (cleanPhone phone).length = 12
            ∧ bodyOK ((cleanPhone phone).drop 2) = true) := by
          intro h
          exact hB2 h.2.2
        simp [validateIndianPhoneNumber, normBody, h1, hcond, h92.1, h92.2, hB2, h10,
          errNonempty, hG]
    · have hcond : ¬ ((cleanPhone phone).take 2 = ['9', '1'] ∧ (cleanPhone phone).length = 12
          ∧ bodyOK ((cleanPhone phone).drop 2) = true) := by
        intro h
        exact h92 ⟨h.1, h.2.1⟩
      by_cases h10 : (cleanPhone phone).length = 10 ∧ bodyOK (cleanPhone phone) = true
      · simp [validateIndianPhoneNumber, normBody, h1, hcond, h92, h10, h10.1, h10.2, errNonempty]
      · have hBc : bodyOK (cleanPhone phone) = false := by
          rcases Bool.eq_false_or_eq_true (bodyOK (cleanPhone phone)) with ht | hf
          · exact absurd ⟨bodyOK_length ht, ht⟩ h10
          · exact hf
        simp [validateIndianPhoneNumber, normBody, h1, hcond, h92, h10, hBc, errNonempty, hG]

/-! ## Rate limiter (`OTPService.checkRateLimit` / `updateRateLimit`)

The `phone_verification_status` row for a (user, phone) pair.  Timestamps are
`Int` milliseconds since the epoch, matching the `Date.getTime()` arithmetic of
the source: `(now - lastSent) / 1000 < 60` is equivalent to
`now - lastSent < 60000`, and one hour is `3600000` ms. -/
structure RateRow where
  otp_request_count : Int
  rate_limit_reset_at : Int
  last_otp_sent_at : Option Int
deriving DecidableEq, Repr

/-- Structured stand-ins for the user-facing message strings built by
`checkRateLimit` (the source renders `rateLimitExceeded` with the reset time
and `pleaseWaitMs` as `ceil` of the remaining milliseconds over 1000). -/
inductive RLMessage
  | notAuthenticated
  | rateLimitExceeded (resetTime : Int)
  | pleaseWaitMs (msRemaining : Int)
deriving DecidableEq, Repr

/-- Result record of `checkRateLimit` (interface `RateLimitStatus`). -/
structure RateLimitStatus where
  canSend : Bool
  remainingAttempts : Int
  resetTime : Option Int
  message : Option RLMessage
deriving DecidableEq, Repr

/-- `MAX_OTP_REQUESTS_PER_HOUR = 3`. -/
def MAX_OTP_REQUESTS_PER_HOUR : Int := 3

/-- Shallow embedding of `OTPService.checkRateLimit`.  `authed` is whether
`supabase.auth.getUser()` produced a user; `lookup` is the outcome of the
`phone_verification_status` select: `.error` for a query error (the catch-all
around the whole body funnels thrown exceptions into the same fail-open
result), `.ok none` for no row, `.ok (some row)` for the stored window row. -/
def checkRateLimit (authed : Bool) (lookup : Except Unit (Option RateRow)) (now : Int) :
    RateLimitStatus :=
  if !authed then
    { canSend := false, remainingAttempts := 0, resetTime := none,
      message := some .notAuthenticated }
  else
    match lookup with
    | .error _ =>
      { canSend := true, remainingAttempts := MAX_OTP_REQUESTS_PER_HOUR,
        resetTime := none, message := none }
    | .ok none =>
      { canSend := true, remainingAttempts := MAX_OTP_REQUESTS_PER_HOUR,
        resetTime := none, message := none }
    | .ok (some row) =>
      if now > row.rate_limit_reset_at then
        { canSend := true, remainingAttempts := MAX_OTP_REQUESTS_PER_HOUR,
          resetTime := none, message := none }
      else
        let remaining := MAX_OTP_REQUESTS_PER_HOUR - row.otp_request_count
        if remaining ≤ 0 then
          { canSend := false, remainingAttempts := 0,
            resetTime := some row.rate_limit_reset_at,
            message := some (.rateLimitExceeded row.rate_limit_reset_at) }
        else
          match row.last_otp_sent_at with
          | some lastSent =>
            if now - lastSent < 60000 then
              { canSend := false, remainingAttempts := remaining, resetTime := none,
                message := some (.pleaseWaitMs (60000 - (now - lastSent))) }
            else
              { canSend := true, remainingAttempts := remaining, resetTime := none,
                message := none }
          | none =>
            { canSend := true, remainingAttempts := remaining, resetTime := none,
              message := none }

/-- Shallow embedding of `OTPService.updateRateLimit`: `existing` is the
current row for the (user, phone) pair if any; the function returns the row
written back (update or insert). -/
def updateRateLimit (existing : Option RateRow) (now : Int) : RateRow :=
  match existing with
  | some row =>
    if now > row.rate_limit_reset_at then
      { otp_request_count := 1, rate_limit_reset_at := now + 3600000,
        last_otp_sent_at := some now }
    else
      { otp_request_count := row.otp_request_count + 1,
        rate_limit_reset_at := row.rate_limit_reset_at, last_otp_sent_at := some now }
  | none =>
    { otp_request_count := 1, rate_limit_reset_at := now + 3600000,
      last_otp_sent_at := some now }

/-- The quota/window scenario of claim C5, over the rows produced by recording
three sends at `t0 < t1 < t2` into an initially absent window row. -/
def RateQuotaScenario (t0 t1 t2 t3 t4 : Int) : Prop :=
  let r1 := updateRateLimit none t0
  let r2 := updateRateLimit (some r1) t1
  let r3 := updateRateLimit (some r2) t2
  r1 = { otp_request_count := 1, rate_limit_reset_at := t0 + 3600000,
         last_otp_sent_at := some t0 }
  ∧ checkRateLimit true (.ok (some r1)) t1 =
      { canSend := true, remainingAttempts := 2, resetTime := none, message := none }
  ∧ checkRateLimit true (.ok (some r2)) t2 =
      { canSend := true, remainingAttempts := 1, resetTime := none, message := none }
  ∧ checkRateLimit true (.ok (some r3)) t3 =
      { canSend := false, remainingAttempts := 0, resetTime := some (t0 + 3600000),
        message := some (.rateLimitExceeded (t0 + 3600000)) }
  ∧ checkRateLimit true (.ok (some r3)) t4 =
      { canSend := true, remainingAttempts := 3, resetTime := none, message := none }

/-- Claim C5: with quota 3 and a fresh window, three recorded sends exhaust the
quota — a fourth check within the hour is denied with `remainingAttempts = 0`
and the reset time, a check after the reset time is allowed with full quota —
and `updateRateLimit` increments the count and stamps `last_otp_sent_at` inside
a live window, while it starts a fresh window (`count = 1`,
`reset = now + 1h`) once the previous window has expired. -/
theorem rate_limiter_quota_and_window (t0 t1 t2 t3 t4 : Int)
    (h1c : t1 - t0 ≥ 60000) (h1w : ¬ t1 > t0 + 3600000)
    (h2c : t2 - t1 ≥ 60000) (h2w : ¬ t2 > t0 + 3600000)
    (h3w : ¬ t3 > t0 + 3600000) (h4 : t4 > t0 + 3600000) :
    RateQuotaScenario t0 t1 t2 t3 t4
    ∧ (∀ (row : RateRow) (now : Int), ¬ now > row.rate_limit_reset_at →
        updateRateLimit (some row) now =
          { otp_request_count := row.otp_request_count + 1,
            rate_limit_reset_at := row.rate_limit_reset_at, last_otp_sent_at := some now })
    ∧ (∀ (row : RateRow) (now : Int), now > row.rate_limit_reset_at →
        updateRateLimit (some row) now =
          { otp_request_count := 1, rate_limit_reset_at := now + 3600000,
            last_otp_sent_at := some now })
    ∧ (∀ now : Int, updateRateLimit none now =
        { otp_request_count := 1, rate_limit_reset_at := now + 3600000,
          last_otp_sent_at := some now })
    ∧ (∀ (row : RateRow) (now : Int), now > row.rate_limit_reset_at →
        checkRateLimit true (.ok (some row)) now =
          { canSend := true, remainingAttempts := 3, resetTime := none, message := none }) := by
  refine ⟨?_, ?_, ?_, ?_, ?_⟩
  · have hnc1 : ¬ t1 - t0 < 60000 := by omega
    have hnc2 : ¬ t2 - t1 < 60000 := by omega
    refine ⟨rfl, ?_, ?_, ?_, ?_⟩
    · simp [updateRateLimit, checkRateLimit, MAX_OTP_REQUESTS_PER_HOUR, h1w, hnc1]
    · simp [updateRateLimit, checkRateLimit, MAX_OTP_REQUESTS_PER_HOUR, h1w, h2w, hnc2]
    · simp [updateRateLimit, checkRateLimit, MAX_OTP_REQUESTS_PER_HOUR, h1w, h2w, h3w]
    · simp [updateRateLimit, checkRateLimit, MAX_OTP_REQUESTS_PER_HOUR, h1w, h2w, h4]
  · intro row now h
    simp [updateRateLimit, h]
  · intro row now h
    simp [updateRateLimit, h]
  · intro now
    rfl
  · intro row now h
    simp [checkRateLimit, MAX_OTP_REQUESTS_PER_HOUR, h]

/-- Claim C6 counterexample state: a window whose hour expired at
`rate_limit_reset_at = 1000000` with a send recorded at `995000`. -/
def staleCooldownRow : RateRow :=
  { otp_request_count := 1, rate_limit_reset_at := 1000000,
    last_otp_sent_at := some 995000 }

/-- Claim C6 is false as stated: at `now = 1005000`, only 10 seconds after the
last recorded send and with quota remaining, `checkRateLimit` returns
`canSend = true` — the expired-window branch runs before the cooldown gate, so
the 60-second cooldown is not enforced once `now` passes
`rate_limit_reset_at`. -/
theorem cooldown_not_unconditional_counterexample :
    (1005000 - 995000 < (60000 : Int))
    ∧ staleCooldownRow.last_otp_sent_at = some 995000
    ∧ MAX_OTP_REQUESTS_PER_HOUR - staleCooldownRow.otp_request_count > 0
    ∧ checkRateLimit true (.ok (some staleCooldownRow)) 1005000 =
        { canSend := true, remainingAttempts := 3, resetTime := none, message := none } := by
  decide

/-- Claim C6 (amended): while the window is live (`now ≤ rate_limit_reset_at`),
a check less than 60 s after the last send is denied with a hint message
regardless of remaining quota; with quota remaining, the cooldown branch
reports the remaining quota and the wait hint, and a check 61 s or more after
the last send is allowed; the hourly-quota gate denies independently of the
cooldown; but once `now` exceeds `rate_limit_reset_at` the check is allowed
regardless of how recent the last send was. -/
theorem cooldown_and_quota_gates (row : RateRow) (now lastSent : Int)
    (hlast : row.last_otp_sent_at = some lastSent) :
    (¬ now > row.rate_limit_reset_at → now - lastSent < 60000 →
      (checkRateLimit true (.ok (some row)) now).canSend = false
      ∧ (checkRateLimit true (.ok (some row)) now).message ≠ none)
    ∧ (¬ now > row.rate_limit_reset_at →
        MAX_OTP_REQUESTS_PER_HOUR - row.otp_request_count > 0 → now - lastSent < 60000 →
        checkRateLimit true (.ok (some row)) now =
          { canSend := false,
            remainingAttempts := MAX_OTP_REQUESTS_PER_HOUR - row.otp_request_count,
            resetTime := none,
            message := some (.pleaseWaitMs (60000 - (now - lastSent))) })
    ∧ (¬ now > row.rate_limit_reset_at →
        MAX_OTP_REQUESTS_PER_HOUR - row.otp_request_count > 0 → now - lastSent ≥ 61000 →
        checkRateLimit true (.ok (some row)) now =
          { canSend := true,
            remainingAttempts := MAX_OTP_REQUESTS_PER_HOUR - row.otp_request_count,
            resetTime := none, message := none })
    ∧ (¬ now > row.rate_limit_reset_at →
        MAX_OTP_REQUESTS_PER_HOUR - row.otp_request_count ≤ 0 →
        checkRateLimit true (.ok (some row)) now =
          { canSend := false, remainingAttempts := 0,
            resetTime := some row.rate_limit_reset_at,
            message := some (.rateLimitExceeded row.rate_limit_reset_at) })
    ∧ (now > row.rate_limit_reset_at →
        checkRateLimit true (.ok (some row)) now =
          { canSend := true, remainingAttempts := 3, resetTime := none, message := none }) := by
  refine ⟨?_, ?_, ?_, ?_, ?_⟩
  · intro hw hcd
    by_cases hq : MAX_OTP_REQUESTS_PER_HOUR - row.otp_request_count ≤ 0
    · simp [checkRateLimit, hw, hq]
    · simp [checkRateLimit, hw, hq, hlast, hcd]
  · intro hw hq hcd
    have hq' : ¬ MAX_OTP_REQUESTS_PER_HOUR - row.otp_request_count ≤ 0 := by omega
    simp [checkRateLimit, hw, hq', hlast, hcd]
  · intro hw hq hcd
    have hq' : ¬ MAX_OTP_REQUESTS_PER_HOUR - row.otp_request_count ≤ 0 := by omega
    have hcd' : ¬ now - lastSent < 60000 := by omega
    simp [checkRateLimit, hw, hq', hlast, hcd']
  · intro hw hq
    simp [checkRateLimit, hw, hq]
  · intro hw
    simp [checkRateLimit, MAX_OTP_REQUESTS_PER_HOUR, hw]

/-- Claim C10: the rate limiter fails open — a database error during the
lookup (or an exception funnelled into the catch-all) makes `checkRateLimit`
return `canSend = true` with the full quota of 3, so a storage failure never
blocks an OTP send. -/
theorem rate_limiter_fails_open (now : Int) (e : Unit) :
    checkRateLimit true (.error e) now =
      { canSend := true, remainingAttempts := 3, resetTime := none, message := none } := by
  rfl

/-! ## KYC data model (`kyc_verifications`, `profiles`, `notifications`) -/

/-- The `kyc_verification_status` enum. -/
inductive KycStatus
  | pending
  | under_review
  | approved
  | rejected
deriving DecidableEq, Repr

/-- The `notification_type` enum. -/
inductive NotificationType
  | booking
  | payment
  | system
  | host
  | review
deriving DecidableEq, Repr

/-- The `notification_priority` enum. -/
inductive NotificationPriority
  | low
  | medium
  | high
deriving DecidableEq, Repr

/-- A `kyc_verifications` row.  `id` and `user_id` are `Nat` stand-ins for the
uuid columns; timestamp columns are `Int` and text columns `String`. -/
structure KYCRow where
  id : Nat
  user_id : Nat
  phone_number : Option String
  phone_verified : Bool
  phone_otp : Option String
  phone_otp_expires_at : Option Int
  phone_otp_attempts : Int
  video_url : Option String
  video_public_id : Option String
  government_id_type : Option String
  government_id_url : Option String
  government_id_public_id : Option String
  status : KycStatus
  rejection_reason : Option String
  reviewed_by : Option Nat
  reviewed_at : Option Int
  submitted_at : Option Int
deriving DecidableEq, Repr

/-- The slice of a `profiles` row touched by the KYC workflow. -/
structure Profile where
  id : Nat
  role : String
  kyc_status : String
  identity_verified : Bool
deriving DecidableEq, Repr

/-- A `notifications` row (sans generated id / read flag / timestamp). -/
structure Notification where
  user_id : Nat
  ntype : NotificationType
  title : String
  message : String
  priority : NotificationPriority
  related_id : Option Nat
deriving DecidableEq, Repr

/-- The database state the KYC workflow touches: each table is a list of rows
in insertion order. -/
structure DBState where
  kyc : List KYCRow
  profiles : List Profile
  notifications : List Notification
deriving DecidableEq, Repr

/-- Errors of the modelled operations. -/
inductive DbError
  | notAuthenticated
  | nullUserNotification
  | uniqueViolation
  | caseNotFound
  | invalidStateTransition
deriving DecidableEq, Repr

/-- SQL `UPDATE t SET ... WHERE sel`: rewrite every selected row in place. -/
def updateWhere {α : Type} (l : List α) (sel : α → Bool) (f : α → α) : List α :=
  l.map (fun x => if sel x then f x else x)

/-- Shallow embedding of the `create_notification` stored procedure: inserts
one row.  A `NULL` recipient violates the `user_id NOT NULL` constraint and
aborts the enclosing transaction. -/
def create_notification (s : DBState) (p_user_id : Option Nat) (p_type : NotificationType)
    (p_title p_message : String) (p_priority : NotificationPriority)
    (p_related_id : Option Nat) : Except DbError DBState :=
  match p_user_id with
  | none => .error .nullUserNotification
  | some uid =>
    .ok { s with notifications := s.notifications ++
            [{ user_id := uid, ntype := p_type, title := p_title, message := p_message,
               priority := p_priority, related_id := p_related_id }] }

/-- The approve branch of `process_kyc_approval` on the case row. -/
def approveKycUpdate (p_admin_id : Nat) (now : Int) (r : KYCRow) : KYCRow :=
  { r with status := .approved, reviewed_by := some p_admin_id, reviewed_at := some now }

/-- The reject branch of `process_kyc_approval` on the case row. -/
def rejectKycUpdate (p_admin_id : Nat) (p_rejection_reason : Option String) (now : Int)
    (r : KYCRow) : KYCRow :=
  { r with status := .rejected, rejection_reason := p_rejection_reason,
           reviewed_by := some p_admin_id, reviewed_at := some now }

/-- The approve branch of `process_kyc_approval` on the owner profile. -/
def approveProfileUpdate (p : Profile) : Profile :=
  { p with role := "host", kyc_status := "approved", identity_verified := true }

/-- The reject branch of `process_kyc_approval` on the owner profile. -/
def rejectProfileUpdate (p : Profile) : Profile :=
  { p with kyc_status := "rejected" }

/-- Body of the approval notification. -/
def kycApprovedMsg : String :=
  "Congratulations! Your KYC verification has been approved. You can now list products as a host."

/-- Body of the rejection notification (`COALESCE` of the reason). -/
def kycRejectedMsg (reason : Option String) : String :=
  "Your KYC verification was not approved. Reason: " ++ reason.getD "Please contact support."

/-- Shallow embedding of the `process_kyc_approval` stored procedure.  The SQL
body selects `user_id` for `p_kyc_id`, updates the case row and the owner
profile, then inserts one notification; it contains no check of the current
case status.  When no case row matches, `v_user_id` is `NULL`: the two updates
affect zero rows and the notification insert violates `NOT NULL`, so the whole
transaction rolls back — modelled as the early `.error` (same net effect). -/
def process_kyc_approval (s : DBState) (p_kyc_id p_admin_id : Nat) (p_approved : Bool)
    (p_rejection_reason : Option String) (now : Int) : Except DbError DBState :=
  match (s.kyc.find? (fun r => r.id == p_kyc_id)).map (fun r => r.user_id) with
  | none => .error .nullUserNotification
  | some v_user_id =>
    if p_approved then
      let s1 := { s with
        kyc := updateWhere s.kyc (fun r => r.id == p_kyc_id) (approveKycUpdate p_admin_id now) }
      let s2 := { s1 with
        profiles := updateWhere s1.profiles (fun p => p.id == v_user_id) approveProfileUpdate }
      create_notification s2 (some v_user_id) .system "KYC Approved" kycApprovedMsg .high none
    else
      let s1 := { s with
        kyc := updateWhere s.kyc (fun r => r.id == p_kyc_id)
          (rejectKycUpdate p_admin_id p_rejection_reason now) }
      let s2 := { s1 with
        profiles := updateWhere s1.profiles (fun p => p.id == v_user_id) rejectProfileUpdate }
      create_notification s2 (some v_user_id) .system "KYC Rejected"
        (kycRejectedMsg p_rejection_reason) .high none

/-- The payload of `createKYCSubmission` in `kycService.ts`. -/
structure SubmissionData where
  phoneNumber : String
  videoUrl : String
  videoPublicId : String
  documentType : String
  documentUrl : String
  documentPublicId : String
deriving DecidableEq, Repr

/-- The payload columns of the `createKYCSubmission` upsert (except `user_id`)
written onto an existing row by a conflict-triggered `DO UPDATE`; unsupplied
columns keep their stored values. -/
def applySubmission (d : SubmissionData) (now : Int) (r : KYCRow) : KYCRow :=
  { r with phone_number := some d.phoneNumber, video_url := some d.videoUrl,
           video_public_id := some d.videoPublicId,
           government_id_type := some d.documentType,
           government_id_url := some d.documentUrl,
           government_id_public_id := some d.documentPublicId,
           status := .pending, submitted_at := some now }

/-- The row the `createKYCSubmission` upsert inserts: the payload columns plus
a database-generated fresh id; unsupplied columns take their schema defaults. -/
def freshKycRow (newId uid : Nat) (d : SubmissionData) (now : Int) : KYCRow :=
  { id := newId, user_id := uid, phone_number := some d.phoneNumber,
    phone_verified := false, phone_otp := none, phone_otp_expires_at := none,
    phone_otp_attempts := 0, video_url := some d.videoUrl,
    video_public_id := some d.videoPublicId, government_id_type := some d.documentType,
    government_id_url := some d.documentUrl,
    government_id_public_id := some d.documentPublicId, status := .pending,
    rejection_reason := none, reviewed_by := none, reviewed_at := none,
    submitted_at := some now }

/-- The `DO UPDATE SET` of the upsert's conflict clause: all payload columns,
`user_id` included. -/
def idConflictUpdate (uid : Nat) (d : SubmissionData) (now : Int) (r : KYCRow) : KYCRow :=
  { applySubmission d now r with user_id := uid }

/-- Shallow embedding of `createKYCSubmission`: requires an authenticated user,
then calls `.upsert(payload)` with NO `onConflict` option, so PostgREST issues
`INSERT ... ON CONFLICT (id) DO UPDATE SET <payload columns>` — the conflict
target is the primary key `id`, not the `user_id UNIQUE` constraint.  The
payload carries no `id`, so the insert uses a database-generated fresh id
(`newId`): the `ON CONFLICT (id)` clause is modelled but never fires for a
fresh id (the branch covers only the conflict-free update), and when a row for
the user already exists the insert instead violates `user_id UNIQUE`, the
query errors, and the function throws. -/
def createKYCSubmission (s : DBState) (authUser : Option Nat) (d : SubmissionData)
    (now : Int) (newId : Nat) : Except DbError DBState :=
  match authUser with
  | none => .error .notAuthenticated
  | some uid =>
    if s.kyc.any (fun r => r.id == newId) then
      .ok { s with
        kyc := updateWhere s.kyc (fun r => r.id == newId) (idConflictUpdate uid d now) }
    else if s.kyc.any (fun r => r.user_id == uid) then
      .error .uniqueViolation
    else
      .ok { s with kyc := s.kyc ++ [freshKycRow newId uid d now] }

/-- Fields cleared by the reset-for-resubmission transition. -/
def resetKycUpdate (r : KYCRow) : KYCRow :=
  { r with status := .pending, rejection_reason := none, video_url := none,
           video_public_id := none, government_id_type := none,
           government_id_url := none, government_id_public_id := none,
           submitted_at := none }

/-- Modelled from the spec: the stored procedure `reset_kyc_for_resubmission`
is not present in the repository sources — only its client caller
`resetKYCForResubmission` in `kycService.ts` is.  Per spec section 4.2
(Reset-for-resubmission), it is a user-only self-service action with
precondition `status = rejected`, and its effect is `status -> pending` with
rejection_reason, the evidence fields and submitted_at cleared. -/
def reset_kyc_for_resubmission (s : DBState) (authUser : Option Nat) :
    Except DbError DBState :=
  match authUser with
  | none => .error .notAuthenticated
  | some uid =>
    match s.kyc.find? (fun r => r.user_id == uid) with
    | none => .error .caseNotFound
    | some r =>
      if r.status = .rejected then
        .ok { s with kyc := updateWhere s.kyc (fun k => k.user_id == uid) resetKycUpdate }
      else
        .error .invalidStateTransition

/-- SQL `a != b` for a nullable text `a` and non-null `b`: `TRUE` only when
`a` is non-null and differs (a `NULL` comparand yields `NULL`, which does not
fire the guard). -/
def sqlNeqText (a : Option String) (b : String) : Bool :=
  match a with
  | none => false
  | some x => x != b

/-- SQL `a < b` for a nullable timestamp `a`: `TRUE` only when `a` is non-null
and earlier. -/
def sqlLtTime (a : Option Int) (b : Int) : Bool :=
  match a with
  | none => false
  | some x => decide (x < b)

/-- The successful-verification update of `verify_phone_otp`: set the verified
flag and clear the transient OTP state in the same `UPDATE`. -/
def verifySuccessUpdate (r : KYCRow) : KYCRow :=
  { r with phone_verified := true, phone_otp := none, phone_otp_expires_at := none,
           phone_otp_attempts := 0 }

/-- Shallow embedding of the `verify_phone_otp` stored procedure: look up the
case row by user; return false when the row is missing, the stored OTP is
non-null and differs, or the stored expiry is non-null and past; otherwise set
`phone_verified` and clear `phone_otp`, `phone_otp_expires_at`,
`phone_otp_attempts` together and return true. -/
def verify_phone_otp (s : DBState) (p_user_id : Nat) (p_otp_code : String) (now : Int) :
    Bool × DBState :=
  match s.kyc.find? (fun r => r.user_id == p_user_id) with
  | none => (false, s)
  | some r =>
    if sqlNeqText r.phone_otp p_otp_code || sqlLtTime r.phone_otp_expires_at now then
      (false, s)
    else
      (true, { s with
        kyc := updateWhere s.kyc (fun k => k.user_id == p_user_id) verifySuccessUpdate })

/-! ## Helper lemmas about row updates -/

theorem find?_map_pred {α : Type} (p : α → Bool) (g : α → α)
    (hpg : ∀ x, p (g x) = p x) :
    ∀ l : List α, List.find? p (l.map g) = (List.find? p l).map g := by
  intro l
  induction l with
  | nil => rfl
  | cons a l ih =>
    by_cases ha : p a = true
    · rw [List.map_cons, List.find?_cons_of_pos _ ((hpg a).trans ha),
        List.find?_cons_of_pos _ ha, Option.map_some']
    · rw [List.map_cons, List.find?_cons_of_neg _ (by simpa using (hpg a).trans_ne ha),
        List.find?_cons_of_neg _ (by simpa using ha), ih]

theorem countP_map_pred {α : Type} (p : α → Bool) (g : α → α)
    (hpg : ∀ x, p (g x) = p x) :
    ∀ l : List α, List.countP p (l.map g) = List.countP p l := by
  intro l
  induction l with
  | nil => rfl
  | cons a l ih =>
    rw [List.map_cons, List.countP_cons, List.countP_cons, ih, hpg a]

theorem any_map_pred {α : Type} (p : α → Bool) (g : α → α)
    (hpg : ∀ x, p (g x) = p x) :
    ∀ l : List α, (l.map g).any p = l.any p := by
  intro l
  induction l with
  | nil => rfl
  | cons a l ih =>
    rw [List.map_cons, List.any_cons, List.any_cons, ih, hpg a]

theorem find?_append_none {α : Type} (p : α → Bool) {l1 : List α} (l2 : List α)
    (h : List.find? p l1 = none) :
    List.find? p (l1 ++ l2) = List.find? p l2 := by
  induction l1 with
  | nil => rfl
  | cons a l ih =>
    by_cases ha : p a = true
    · rw [List.find?_cons_of_pos _ ha] at h
      exact absurd h (by simp)
    · rw [List.find?_cons_of_neg _ (by simpa using ha)] at h
      rw [List.cons_append, List.find?_cons_of_neg _ (by simpa using ha), ih h]

theorem find?_updateWhere {α : Type} (sel : α → Bool) (f : α → α)
    (hf : ∀ x, sel (f x) = sel x) {l : List α} {r : α}
    (h : List.find? sel l = some r) :
    List.find? sel (updateWhere l sel f) = some (f r) := by
  have hs : sel r = true := List.find?_some h
  have := find?_map_pred sel (fun x => if sel x then f x else x)
    (fun x => by by_cases hx : sel x = true <;> simp [hx, hf]) l
  rw [updateWhere, this, h, Option.map_some', if_pos hs]

theorem find?_updateWhere_other {α : Type} (p sel : α → Bool) (f : α → α)
    (hf : ∀ x, p (if sel x then f x else x) = p x) {l : List α} {r : α}
    (h : List.find? p l = some r) :
    List.find? p (updateWhere l sel f) = some (if sel r then f r else r) := by
  rw [updateWhere, find?_map_pred p _ hf l, h, Option.map_some']

/-- The notification row inserted by the approve branch. -/
def approvedNotifRow (uid : Nat) : Notification :=
  { user_id := uid, ntype := .system, title := "KYC Approved", message := kycApprovedMsg,
    priority := .high, related_id := none }

/-- The notification row inserted by the reject branch. -/
def rejectedNotifRow (uid : Nat) (reason : Option String) : Notification :=
  { user_id := uid, ntype := .system, title := "KYC Rejected",
    message := kycRejectedMsg reason, priority := .high, related_id := none }

theorem process_kyc_approval_approve_eq (s : DBState) (kid admin : Nat) (now : Int)
    {r : KYCRow} (hr : List.find? (fun k => k.id == kid) s.kyc = some r) :
    process_kyc_approval s kid admin true none now =
      .ok { kyc := updateWhere s.kyc (fun k => k.id == kid) (approveKycUpdate admin now),
            profiles := updateWhere s.profiles (fun q => q.id == r.user_id)
              approveProfileUpdate,
            notifications := s.notifications ++ [approvedNotifRow r.user_id] } := by
  simp [process_kyc_approval, hr, create_notification, approvedNotifRow]

theorem process_kyc_approval_reject_eq (s : DBState) (kid admin : Nat)
    (reason : Option String) (now : Int)
    {r : KYCRow} (hr : List.find? (fun k => k.id == kid) s.kyc = some r) :
    process_kyc_approval s kid admin false reason now =
      .ok { kyc := updateWhere s.kyc (fun k => k.id == kid)
              (rejectKycUpdate admin reason now),
            profiles := updateWhere s.profiles (fun q => q.id == r.user_id)
              rejectProfileUpdate,
            notifications := s.notifications ++ [rejectedNotifRow r.user_id reason] } := by
  simp [process_kyc_approval, hr, create_notification, rejectedNotifRow]

/-- Claim C2: approving a case whose status is pending or under_review updates
the case to approved with reviewer and timestamp, promotes the owner profile
to the host role with `identity_verified = true`, and appends exactly one
high-priority notification for the owner; the operation returns a single new
state (the model is transactional, so the three effects are all-or-nothing by
construction: any failing branch returns an error and no state). -/
theorem kyc_approve_effects (s : DBState) (kid admin : Nat) (now : Int)
    (r : KYCRow) (p : Profile)
    (hr : List.find? (fun k => k.id == kid) s.kyc = some r)
    (_hst : r.status = .pending ∨ r.status = .under_review)
    (hp : List.find? (fun q => q.id == r.user_id) s.profiles = some p) :
    ∃ s2, process_kyc_approval s kid admin true none now = .ok s2
      ∧ List.find? (fun k => k.id == kid) s2.kyc =
          some { r with status := .approved, reviewed_by := some admin,
                        reviewed_at := some now }
      ∧ List.find? (fun q => q.id == r.user_id) s2.profiles =
          some { p with role := "host", kyc_status := "approved",
                        identity_verified := true }
      ∧ s2.notifications = s.notifications ++
          [{ user_id := r.user_id, ntype := .system, title := "KYC Approved",
             message := kycApprovedMsg, priority := .high, related_id := none }] := by
  refine ⟨_, process_kyc_approval_approve_eq s kid admin now hr, ?_, ?_, ?_⟩
  · exact find?_updateWhere (fun k => k.id == kid) (approveKycUpdate admin now)
      (fun x => rfl) hr
  · exact find?_updateWhere (fun q => q.id == r.user_id) approveProfileUpdate
      (fun x => rfl) hp
  · rfl

/-- A case row already settled as approved, owned by user 5. -/
def settledCaseRow : KYCRow :=
  { id := 1, user_id := 5, phone_number := some "+919876543210", phone_verified := true,
    phone_otp := none, phone_otp_expires_at := none, phone_otp_attempts := 0,
    video_url := some "v1", video_public_id := some "vp1",
    government_id_type := some "aadhar", government_id_url := some "d1",
    government_id_public_id := some "dp1", status := .approved, rejection_reason := none,
    reviewed_by := some 9, reviewed_at := some 50, submitted_at := some 10 }

/-- The profile of user 5, already promoted. -/
def settledProfile : Profile :=
  { id := 5, role := "host", kyc_status := "approved", identity_verified := true }

/-- A database state whose only case is already approved. -/
def settledState : DBState :=
  { kyc := [settledCaseRow], profiles := [settledProfile], notifications := [] }

/-- The state produced by re-approving the already-approved case. -/
def settledStateAfter : DBState :=
  { kyc := [{ settledCaseRow with reviewed_at := some 100 }],
    profiles := [settledProfile],
    notifications := [approvedNotifRow 5] }

/-- Claim C1 is false as stated: `process_kyc_approval` contains no status
guard, so approving a case whose status is already `approved` (not in
{pending, under_review}) succeeds and mutates the state — the case row gets a
fresh `reviewed_at` and a new notification is inserted, instead of the call
being rejected with case, profile and notifications unchanged. -/
theorem approve_without_status_guard_counterexample :
    settledCaseRow.status = KycStatus.approved
    ∧ process_kyc_approval settledState 1 9 true none 100 = .ok settledStateAfter
    ∧ settledStateAfter ≠ settledState
    ∧ settledStateAfter.notifications.length = settledState.notifications.length + 1 := by
  refine ⟨rfl, ?_, by decide, rfl⟩
  rfl

/-- Claim C1 (amended): there is no state-machine guard — Approve and Reject
on an existing case are processed regardless of its current status.  Even when
the status is already `approved` or `rejected`, the call succeeds, rewrites
the case row, updates the owner profile and appends one more notification. -/
theorem kyc_decision_ignores_status (s : DBState) (kid admin : Nat) (now : Int)
    (reason : Option String) (r : KYCRow) (p : Profile)
    (hr : List.find? (fun k => k.id == kid) s.kyc = some r)
    (_hst : r.status = .approved ∨ r.status = .rejected)
    (hp : List.find? (fun q => q.id == r.user_id) s.profiles = some p) :
    (∃ s2, process_kyc_approval s kid admin true none now = .ok s2
      ∧ List.find? (fun k => k.id == kid) s2.kyc =
          some (approveKycUpdate admin now r)
      ∧ List.find? (fun q => q.id == r.user_id) s2.profiles =
          some (approveProfileUpdate p)
      ∧ s2.notifications = s.notifications ++ [approvedNotifRow r.user_id])
    ∧ (∃ s2, process_kyc_approval s kid admin false reason now = .ok s2
      ∧ List.find? (fun k => k.id == kid) s2.kyc =
          some (rejectKycUpdate admin reason now r)
      ∧ List.find? (fun q => q.id == r.user_id) s2.profiles =
          some (rejectProfileUpdate p)
      ∧ s2.notifications = s.notifications ++ [rejectedNotifRow r.user_id reason]) := by
  constructor
  · refine ⟨_, process_kyc_approval_approve_eq s kid admin now hr, ?_, ?_, rfl⟩
    · exact find?_updateWhere (fun k => k.id == kid) (approveKycUpdate admin now)
        (fun x => rfl) hr
    · exact find?_updateWhere (fun q => q.id == r.user_id) approveProfileUpdate
        (fun x => rfl) hp
  · refine ⟨_, process_kyc_approval_reject_eq s kid admin reason now hr, ?_, ?_, rfl⟩
    · exact find?_updateWhere (fun k => k.id == kid) (rejectKycUpdate admin reason now)
        (fun x => rfl) hr
    · exact find?_updateWhere (fun q => q.id == r.user_id) rejectProfileUpdate
        (fun x => rfl) hp

/-- Claim C8: rejecting a pending case with a non-empty reason marks the case
rejected with the stored reason, sets the owner profile `kyc_status` to
rejected while leaving its role unchanged; the owner may then reset the
rejected case, which makes it pending again with the rejection reason, the
evidence references and the submission timestamp all cleared. -/
theorem kyc_reject_then_reset (s : DBState) (kid admin : Nat) (now : Int)
    (reason : String) (r : KYCRow) (p : Profile)
    (hr : List.find? (fun k => k.id == kid) s.kyc = some r)
    (hru : List.find? (fun k => k.user_id == r.user_id) s.kyc = some r)
    (_hst : r.status = .pending)
    (_hreason : reason ≠ "")
    (hp : List.find? (fun q => q.id == r.user_id) s.profiles = some p) :
    ∃ s1,
      process_kyc_approval s kid admin false (some reason) now = .ok s1
      ∧ List.find? (fun k => k.id == kid) s1.kyc =
          some { r with status := .rejected, rejection_reason := some reason,
                        reviewed_by := some admin, reviewed_at := some now }
      ∧ List.find? (fun q => q.id == r.user_id) s1.profiles =
          some { p with kyc_status := "rejected" }
      ∧ ({ p with kyc_status := "rejected" } : Profile).role = p.role
      ∧ ∃ s2, reset_kyc_for_resubmission s1 (some r.user_id) = .ok s2
          ∧ ∃ r2, List.find? (fun k => k.user_id == r.user_id) s2.kyc = some r2
              ∧ r2.status = .pending ∧ r2.rejection_reason = none ∧ r2.video_url = none
              ∧ r2.video_public_id = none ∧ r2.government_id_type = none
              ∧ r2.government_id_url = none ∧ r2.government_id_public_id = none
              ∧ r2.submitted_at = none := by
  have hf : ∀ x : KYCRow,
      ((if (x.id == kid) = true then rejectKycUpdate admin (some reason) now x else x).user_id
        == r.user_id) = (x.user_id == r.user_id) := by
    intro x
    by_cases hx : (x.id == kid) = true <;> simp [hx, rejectKycUpdate]
  have hfindu : List.find? (fun k => k.user_id == r.user_id)
      (updateWhere s.kyc (fun k => k.id == kid) (rejectKycUpdate admin (some reason) now)) =
      some (rejectKycUpdate admin (some reason) now r) := by
    have h := find?_updateWhere_other (fun k => k.user_id == r.user_id)
      (fun k => k.id == kid) (rejectKycUpdate admin (some reason) now) hf hru
    rwa [if_pos (List.find?_some hr)] at h
  refine ⟨_, process_kyc_approval_reject_eq s kid admin (some reason) now hr, ?_, ?_, rfl, ?_⟩
  · exact find?_updateWhere (fun k => k.id == kid) (rejectKycUpdate admin (some reason) now)
      (fun x => rfl) hr
  · exact find?_updateWhere (fun q => q.id == r.user_id) rejectProfileUpdate
      (fun x => rfl) hp
  · have hreset : reset_kyc_for_resubmission
        { kyc := updateWhere s.kyc (fun k => k.id == kid)
            (rejectKycUpdate admin (some reason) now),
          profiles := updateWhere s.profiles (fun q => q.id == r.user_id) rejectProfileUpdate,
          notifications := s.notifications ++ [rejectedNotifRow r.user_id (some reason)] }
        (some r.user_id) =
        .ok { kyc := updateWhere
                (updateWhere s.kyc (fun k => k.id == kid)
                  (rejectKycUpdate admin (some reason) now))
                (fun k => k.user_id == r.user_id) resetKycUpdate,
              profiles := updateWhere s.profiles (fun q => q.id == r.user_id)
                rejectProfileUpdate,
              notifications := s.notifications ++ [rejectedNotifRow r.user_id (some reason)] } := by
      simp [reset_kyc_for_resubmission, hfindu, rejectKycUpdate]
    refine ⟨_, hreset, ?_⟩
    exact ⟨_, find?_updateWhere (fun k => k.user_id == r.user_id) resetKycUpdate
      (fun x => rfl) hfindu, rfl, rfl, rfl, rfl, rfl, rfl, rfl, rfl⟩

/-- A fixed valid submission payload. -/
def wSubmission0 : SubmissionData :=
  { phoneNumber := "+919876543210", videoUrl := "v1", videoPublicId := "vp1",
    documentType := "aadhar", documentUrl := "d1", documentPublicId := "dp1" }

/-- Claim C4 is false as stated: from an empty store, the first Submit
inserts the row, but a second identical Submit does not succeed — the upsert
has no `onConflict` option, its conflict target is the primary key `id`
(generated fresh, so it never fires), and the insert violates the
`user_id UNIQUE` constraint, so `createKYCSubmission` errors instead of
overwriting the existing row. -/
theorem submit_twice_counterexample :
    createKYCSubmission { kyc := [], profiles := [], notifications := [] }
        (some 7) wSubmission0 10 1 =
      .ok { kyc := [freshKycRow 1 7 wSubmission0 10], profiles := [], notifications := [] }
    ∧ createKYCSubmission
        { kyc := [freshKycRow 1 7 wSubmission0 10], profiles := [], notifications := [] }
        (some 7) wSubmission0 20 2 = .error .uniqueViolation := by
  exact ⟨rfl, rfl⟩

/-- Claim C4 (amended): for an authenticated user with no existing case row,
the first Submit succeeds and inserts one row with the payload; an immediate
second Submit with the same payload does not succeed: the upsert passes no
`onConflict`, its conflict resolution targets the primary key `id` — freshly
generated, so it never fires — and the insert violates the `user_id UNIQUE`
constraint, making `createKYCSubmission` throw.  Exactly one case row remains
for the user, holding the FIRST call's data: the submit is not idempotent via
an upsert on user identity. -/
theorem submit_twice_unique_violation (s : DBState) (uid : Nat) (d : SubmissionData)
    (t1 t2 : Int) (id1 id2 : Nat)
    (hnouser : s.kyc.any (fun r => r.user_id == uid) = false)
    (hfresh1 : s.kyc.any (fun r => r.id == id1) = false)
    (hfresh2 : (s.kyc ++ [freshKycRow id1 uid d t1]).any (fun r => r.id == id2) = false) :
    ∃ s1, createKYCSubmission s (some uid) d t1 id1 = .ok s1
      ∧ s1.kyc = s.kyc ++ [freshKycRow id1 uid d t1]
      ∧ createKYCSubmission s1 (some uid) d t2 id2 = .error .uniqueViolation
      ∧ List.countP (fun r => r.user_id == uid) s1.kyc = 1
      ∧ List.find? (fun r => r.user_id == uid) s1.kyc = some (freshKycRow id1 uid d t1)
      ∧ (freshKycRow id1 uid d t1).submitted_at = some t1 := by
  have hfreshsel : ((freshKycRow id1 uid d t1).user_id == uid) = true := by
    simp [freshKycRow]
  have hnotany : ¬ (s.kyc.any (fun r => r.user_id == uid) = true) := by
    simp [hnouser]
  have hnone : List.find? (fun r => r.user_id == uid) s.kyc = none :=
    List.find?_eq_none.mpr (fun a ha hpa =>
      hnotany (List.any_eq_true.mpr ⟨a, ha, hpa⟩))
  have hzero : List.countP (fun r => r.user_id == uid) s.kyc = 0 :=
    List.countP_eq_zero.mpr (fun a ha hpa =>
      hnotany (List.any_eq_true.mpr ⟨a, ha, hpa⟩))
  have hany1 : (s.kyc ++ [freshKycRow id1 uid d t1]).any
      (fun r => r.user_id == uid) = true := by
    simp [List.any_append, hfreshsel]
  have hstep1 : createKYCSubmission s (some uid) d t1 id1 =
      .ok { s with kyc := s.kyc ++ [freshKycRow id1 uid d t1] } := by
    simp [createKYCSubmission, hfresh1, hnouser]
  have hstep2 : createKYCSubmission { s with kyc := s.kyc ++ [freshKycRow id1 uid d t1] }
      (some uid) d t2 id2 = .error .uniqueViolation := by
    simp [createKYCSubmission, hfresh2, hany1]
  refine ⟨_, hstep1, rfl, hstep2, ?_, ?_, rfl⟩
  · show List.countP (fun r => r.user_id == uid) (s.kyc ++ [freshKycRow id1 uid d t1]) = 1
    rw [List.countP_append, hzero]
    simp [List.countP_cons, hfreshsel]
  · show List.find? (fun r => r.user_id == uid) (s.kyc ++ [freshKycRow id1 uid d t1]) =
      some (freshKycRow id1 uid d t1)
    rw [find?_append_none _ _ hnone]
    exact List.find?_cons_of_pos _ hfreshsel

/-! ## The phone-OTP pair invariant -/

/-- Row invariant of claim C9: a verified row carries no transient OTP state. -/
def RowOtpInv (r : KYCRow) : Prop :=
  r.phone_verified = true → r.phone_otp = none ∧ r.phone_otp_expires_at = none

/-- The invariant over every `kyc_verifications` row of a state. -/
def StateOtpInv (s : DBState) : Prop :=
  ∀ r ∈ s.kyc, RowOtpInv r

/-- A row transformer leaves the transient OTP pair and the verified flag
untouched. -/
def otpFieldsUnchanged (r r2 : KYCRow) : Prop :=
  r2.phone_otp = r.phone_otp ∧ r2.phone_otp_expires_at = r.phone_otp_expires_at
    ∧ r2.phone_verified = r.phone_verified

theorem rowInv_updateWhere (sel : KYCRow → Bool) (f : KYCRow → KYCRow)
    (hf : ∀ x, RowOtpInv x → RowOtpInv (f x)) {l : List KYCRow}
    (h : ∀ x ∈ l, RowOtpInv x) : ∀ y ∈ updateWhere l sel f, RowOtpInv y := by
  intro y hy
  obtain ⟨x, hx, hxy⟩ := List.mem_map.mp hy
  by_cases hs : sel x = true
  · rw [if_pos hs] at hxy
    exact hxy ▸ hf x (h x hx)
  · rw [if_neg hs] at hxy
    exact hxy ▸ h x hx

/-- Claim C9: in every state reachable by the repository KYC operations,
`phone_otp` and `phone_otp_expires_at` are both null whenever `phone_verified`
is true — each operation preserves the invariant — and no operation clears one
of the two fields without the other: submit, approve, reject and reset leave
the pair (and the verified flag) untouched, while the success branch of
`verify_phone_otp` sets the verified flag and clears both fields in the same
update. -/
theorem otp_pair_invariant :
    (∀ (s : DBState) (u : Option Nat) (d : SubmissionData) (now : Int) (nid : Nat)
      (s2 : DBState), createKYCSubmission s u d now nid = .ok s2 →
        StateOtpInv s → StateOtpInv s2)
    ∧ (∀ (s : DBState) (kid admin : Nat) (ap : Bool) (reason : Option String) (now : Int)
      (s2 : DBState), process_kyc_approval s kid admin ap reason now = .ok s2 →
        StateOtpInv s → StateOtpInv s2)
    ∧ (∀ (s : DBState) (u : Option Nat) (s2 : DBState),
        reset_kyc_for_resubmission s u = .ok s2 → StateOtpInv s → StateOtpInv s2)
    ∧ (∀ (s : DBState) (pu : Nat) (code : String) (now : Int),
        StateOtpInv s → StateOtpInv (verify_phone_otp s pu code now).2)
    ∧ (∀ (r : KYCRow) (d : SubmissionData) (now : Int),
        otpFieldsUnchanged r (applySubmission d now r))
    ∧ (∀ (r : KYCRow) (admin : Nat) (now : Int),
        otpFieldsUnchanged r (approveKycUpdate admin now r))
    ∧ (∀ (r : KYCRow) (admin : Nat) (reason : Option String) (now : Int),
        otpFieldsUnchanged r (rejectKycUpdate admin reason now r))
    ∧ (∀ r : KYCRow, otpFieldsUnchanged r (resetKycUpdate r))
    ∧ (∀ r : KYCRow, (verifySuccessUpdate r).phone_verified = true
        ∧ (verifySuccessUpdate r).phone_otp = none
        ∧ (verifySuccessUpdate r).phone_otp_expires_at = none) := by
  refine ⟨?_, ?_, ?_, ?_,
    fun r d now => ⟨rfl, rfl, rfl⟩,
    fun r admin now => ⟨rfl, rfl, rfl⟩,
    fun r admin reason now => ⟨rfl, rfl, rfl⟩,
    fun r => ⟨rfl, rfl, rfl⟩,
    fun r => ⟨rfl, rfl, rfl⟩⟩
  · intro s u d now nid s2 h hinv
    match u with
    | none => simp [createKYCSubmission] at h
    | some uid =>
      by_cases hid : s.kyc.any (fun r => r.id == nid) = true
      · simp [createKYCSubmission, hid] at h
        intro r hr
        rw [← h] at hr
        exact rowInv_updateWhere _ (idConflictUpdate uid d now) (fun x hx => hx) hinv r hr
      · by_cases hany : s.kyc.any (fun r => r.user_id == uid) = true
        · simp [createKYCSubmission, hid, hany] at h
        · simp [createKYCSubmission, hid, hany] at h
          intro r hr
          rw [← h] at hr
          rcases List.mem_append.mp hr with hl | hfresh
          · exact hinv r hl
          · rw [List.mem_singleton.mp hfresh]
            intro hv
            simp [freshKycRow] at hv
  · intro s kid admin ap reason now s2 h hinv
    cases hfind : s.kyc.find? (fun r => r.id == kid) with
    | none => simp [process_kyc_approval, hfind] at h
    | some r0 =>
      cases ap with
      | true =>
        simp [process_kyc_approval, hfind, create_notification] at h
        intro r hr
        rw [← h] at hr
        exact rowInv_updateWhere _ (approveKycUpdate admin now) (fun x hx => hx) hinv r hr
      | false =>
        simp [process_kyc_approval, hfind, create_notification] at h
        intro r hr
        rw [← h] at hr
        exact rowInv_updateWhere _ (rejectKycUpdate admin reason now)
          (fun x hx => hx) hinv r hr
  · intro s u s2 h hinv
    match u with
    | none => simp [reset_kyc_for_resubmission] at h
    | some uid =>
      cases hfind : s.kyc.find? (fun r => r.user_id == uid) with
      | none => simp [reset_kyc_for_resubmission, hfind] at h
      | some r0 =>
        by_cases hst : r0.status = KycStatus.rejected
        · simp [reset_kyc_for_resubmission, hfind, hst] at h
          intro r hr
          rw [← h] at hr
          exact rowInv_updateWhere _ resetKycUpdate (fun x hx => hx) hinv r hr
        · simp [reset_kyc_for_resubmission, hfind, hst] at h
  · intro s pu code now hinv
    cases hfind : s.kyc.find? (fun r => r.user_id == pu) with
    | none => simpa [verify_phone_otp, hfind] using hinv
    | some r0 =>
      by_cases hguard : (sqlNeqText r0.phone_otp code
          || sqlLtTime r0.phone_otp_expires_at now) = true
      · simpa [verify_phone_otp, hfind, hguard] using hinv
      · have heq : (verify_phone_otp s pu code now).2 =
            { s with kyc := updateWhere s.kyc (fun k => k.user_id == pu) verifySuccessUpdate } := by
          simp [verify_phone_otp, hfind, hguard]
        rw [heq]
        intro r hr
        exact rowInv_updateWhere _ verifySuccessUpdate
          (fun x _ => fun _ => ⟨rfl, rfl⟩) hinv r hr

/-! ## OTP provider adapter (`send-otp` and `verify-otp` edge functions)

Each provider call is modelled by the observable outcome of its HTTP exchange;
the adapter functions below map an outcome to `Except` exactly as the source
maps it to a return or a thrown error. -/

/-- Result of a successful send (`requestId` from the provider response). -/
structure OtpSendSuccess where
  requestId : Option String
deriving DecidableEq, Repr

/-- Outcome of the MSG91 send exchange: missing env credentials, a thrown
network/parse error, or a parsed response with its HTTP-ok flag, its
`type == success` flag and its `request_id`. -/
inductive MSG91SendOutcome
  | missingCreds
  | networkError
  | response (ok : Bool) (typeSuccess : Bool) (request_id : Option String)
deriving DecidableEq, Repr

/-- `sendOTPViaMSG91`: returns only when the response is HTTP-ok with
`type == success`; every other outcome (missing credentials, network error,
non-success response) throws. -/
def sendOTPViaMSG91 : MSG91SendOutcome → Except Unit OtpSendSuccess
  | .response true true rid => .ok { requestId := rid }
  | _ => .error ()

/-- Outcome of the Twilio send exchange. -/
inductive TwilioSendOutcome
  | missingCreds
  | networkError
  | response (ok : Bool) (sid : Option String)
deriving DecidableEq, Repr

/-- `sendOTPViaTwilio`: returns on an HTTP-ok response, throws otherwise. -/
def sendOTPViaTwilio : TwilioSendOutcome → Except Unit OtpSendSuccess
  | .response true sid => .ok { requestId := sid }
  | _ => .error ()

/-- The JSON body/status the `send-otp` handler responds with. -/
structure SendOtpHttpResult where
  status : Nat
  success : Bool
  provider : Option String
  requestId : Option String
deriving DecidableEq, Repr

/-- The provider-fallback chain of the `send-otp` handler (after input
validation): try MSG91; on a thrown failure try Twilio once; if that throws
too, respond 500 "both providers unavailable".  The second component counts
how many times Twilio was invoked. -/
def sendOtpFallback (m : MSG91SendOutcome) (t : TwilioSendOutcome) :
    SendOtpHttpResult × Nat :=
  match sendOTPViaMSG91 m with
  | .ok r =>
    ({ status := 200, success := true, provider := some "msg91",
       requestId := r.requestId }, 0)
  | .error _ =>
    match sendOTPViaTwilio t with
    | .ok r =>
      ({ status := 200, success := true, provider := some "twilio",
         requestId := r.requestId }, 1)
    | .error _ =>
      ({ status := 500, success := false, provider := none, requestId := none }, 1)

/-- Outcome of the MSG91 verify exchange: the parsed response carries the
HTTP-ok flag and the `type == success` flag. -/
inductive MSG91VerifyOutcome
  | missingCreds
  | networkError
  | response (ok : Bool) (typeSuccess : Bool)
deriving DecidableEq, Repr

/-- `verifyOTPViaMSG91`: throws on missing credentials or a network error, but
RETURNS `ok && typeSuccess` for any parsed response — a non-success response
yields `false` without throwing. -/
def verifyOTPViaMSG91 : MSG91VerifyOutcome → Except Unit Bool
  | .missingCreds => .error ()
  | .networkError => .error ()
  | .response ok typeSuccess => .ok (ok && typeSuccess)

/-- Outcome of the Twilio verify exchange. -/
inductive TwilioVerifyOutcome
  | missingCreds
  | networkError
  | response (ok : Bool) (approved : Bool)
deriving DecidableEq, Repr

/-- `verifyOTPViaTwilio`: throws on missing credentials or a network error,
returns `ok && approved` for a parsed response. -/
def verifyOTPViaTwilio : TwilioVerifyOutcome → Except Unit Bool
  | .missingCreds => .error ()
  | .networkError => .error ()
  | .response ok approved => .ok (ok && approved)

/-- The JSON body/status the `verify-otp` handler responds with. -/
structure VerifyOtpHttpResult where
  status : Nat
  success : Bool
  verified : Bool
  provider : Option String
deriving DecidableEq, Repr

/-- The provider-fallback chain of the `verify-otp` handler (after input
validation), with the Twilio invocation count. -/
def verifyOtpFallback (m : MSG91VerifyOutcome) (t : TwilioVerifyOutcome) :
    VerifyOtpHttpResult × Nat :=
  match verifyOTPViaMSG91 m with
  | .ok v =>
    ({ status := 200, success := true, verified := v, provider := some "msg91" }, 0)
  | .error _ =>
    match verifyOTPViaTwilio t with
    | .ok v =>
      ({ status := 200, success := true, verified := v, provider := some "twilio" }, 1)
    | .error _ =>
      ({ status := 500, success := false, verified := false, provider := none }, 1)

/-- Claim C7 is false as stated for the verify operation: a non-success MSG91
verify response (HTTP not ok, e.g. a provider-side rejection) does not throw —
`verifyOTPViaMSG91` returns `false` — so the handler responds 200 with
`verified = false` via MSG91 and Twilio is invoked zero times, even though
Twilio (which would have verified successfully here) was available. -/
theorem verify_no_fallback_on_bad_response_counterexample :
    verifyOTPViaMSG91 (.response false true) = .ok false
    ∧ verifyOtpFallback (.response false true) (.response true true) =
        ({ status := 200, success := true, verified := false, provider := some "msg91" }, 0) := by
  exact ⟨rfl, rfl⟩

/-- Claim C7 (amended): for send, every MSG91 failure mode — missing
credentials, network error, non-success response — throws, which triggers
exactly one Twilio attempt whose result is returned, and a 500
"both providers unavailable" response when Twilio fails too.  For verify, only
thrown failures (missing credentials, network error) trigger the single
Twilio fallback; a parsed non-success MSG91 response is returned as
`verified = false` from the primary with no fallback; when both providers
throw, the handler responds 500. -/
theorem otp_provider_fallback_chain :
    (∀ m : MSG91SendOutcome,
      (m = .missingCreds ∨ m = .networkError
        ∨ ∃ ok ts rid, m = .response ok ts rid ∧ (ok && ts) = false) →
      sendOTPViaMSG91 m = .error ())
    ∧ (∀ (m : MSG91SendOutcome) (t : TwilioSendOutcome) (r : OtpSendSuccess),
        sendOTPViaMSG91 m = .error () → sendOTPViaTwilio t = .ok r →
        sendOtpFallback m t =
          ({ status := 200, success := true, provider := some "twilio",
             requestId := r.requestId }, 1))
    ∧ (∀ (m : MSG91SendOutcome) (t : TwilioSendOutcome),
        sendOTPViaMSG91 m = .error () → sendOTPViaTwilio t = .error () →
        sendOtpFallback m t =
          ({ status := 500, success := false, provider := none, requestId := none }, 1))
    ∧ (∀ (m : MSG91SendOutcome) (t : TwilioSendOutcome) (r : OtpSendSuccess),
        sendOTPViaMSG91 m = .ok r →
        sendOtpFallback m t =
          ({ status := 200, success := true, provider := some "msg91",
             requestId := r.requestId }, 0))
    ∧ (∀ m : MSG91VerifyOutcome,
        (m = .missingCreds ∨ m = .networkError) → verifyOTPViaMSG91 m = .error ())
    ∧ (∀ ok ts : Bool, verifyOTPViaMSG91 (.response ok ts) = .ok (ok && ts))
    ∧ (∀ (m : MSG91VerifyOutcome) (t : TwilioVerifyOutcome) (v : Bool),
        verifyOTPViaMSG91 m = .error () → verifyOTPViaTwilio t = .ok v →
        verifyOtpFallback m t =
          ({ status := 200, success := true, verified := v, provider := some "twilio" }, 1))
    ∧ (∀ (m : MSG91VerifyOutcome) (t : TwilioVerifyOutcome),
        verifyOTPViaMSG91 m = .error () → verifyOTPViaTwilio t = .error () →
        verifyOtpFallback m t =
          ({ status := 500, success := false, verified := false, provider := none }, 1)) := by
  refine ⟨?_, ?_, ?_, ?_, ?_, fun ok ts => rfl, ?_, ?_⟩
  · intro m hm
    rcases hm with rfl | rfl | ⟨ok, ts, rid, rfl, hf⟩
    · rfl
    · rfl
    · cases ok <;> cases ts <;> first | rfl | simp at hf
  · intro m t r hm ht
    simp [sendOtpFallback, hm, ht]
  · intro m t hm ht
    simp [sendOtpFallback, hm, ht]
  · intro m t r hm
    simp [sendOtpFallback, hm]
  · intro m hm
    rcases hm with rfl | rfl <;> rfl
  · intro m t v hm ht
    simp [verifyOtpFallback, hm, ht]
  · intro m t hm ht
    simp [verifyOtpFallback, hm, ht]

/-! ## Concrete witnesses -/

/-- A pending case row of user 5. -/
def wKycRow : KYCRow :=
  { id := 1, user_id := 5, phone_number := some "+919876543210", phone_verified := false,
    phone_otp := none, phone_otp_expires_at := none, phone_otp_attempts := 0,
    video_url := some "v1", video_public_id := some "vp1",
    government_id_type := some "aadhar", government_id_url := some "d1",
    government_id_public_id := some "dp1", status := .pending, rejection_reason := none,
    reviewed_by := none, reviewed_at := none, submitted_at := some 10 }

/-- The unpromoted profile of user 5. -/
def wProfile : Profile :=
  { id := 5, role := "renter", kyc_status := "pending", identity_verified := false }

/-- A state with one pending case. -/
def wState : DBState :=
  { kyc := [wKycRow], profiles := [wProfile], notifications := [] }

theorem rate_limiter_quota_and_window_witness :
    RateQuotaScenario 0 60000 120000 180000 3600001 :=
  (rate_limiter_quota_and_window 0 60000 120000 180000 3600001 (by decide) (by decide)
    (by decide) (by decide) (by decide) (by decide)).1

theorem cooldown_and_quota_gates_witness :
    (checkRateLimit true
      (.ok (some { otp_request_count := 1, rate_limit_reset_at := 3600000,
                   last_otp_sent_at := some 5000 })) 15000).canSend = false :=
  (((cooldown_and_quota_gates
      { otp_request_count := 1, rate_limit_reset_at := 3600000,
        last_otp_sent_at := some 5000 } 15000 5000 rfl).1 (by decide)) (by decide)).1

theorem kyc_approve_effects_witness :
    ∃ s2, process_kyc_approval wState 1 9 true none 100 = .ok s2
      ∧ s2.notifications = [approvedNotifRow 5] := by
  obtain ⟨s2, h1, _, _, h4⟩ :=
    kyc_approve_effects wState 1 9 100 wKycRow wProfile rfl (Or.inl rfl) rfl
  exact ⟨s2, h1, by simpa using h4⟩

theorem kyc_decision_ignores_status_witness :
    ∃ s2, process_kyc_approval settledState 1 9 true none 100 = .ok s2
      ∧ s2.notifications = [approvedNotifRow 5] := by
  obtain ⟨⟨s2, h1, _, _, h4⟩, _⟩ :=
    kyc_decision_ignores_status settledState 1 9 100 none settledCaseRow settledProfile
      rfl (Or.inl rfl) rfl
  exact ⟨s2, h1, by simpa using h4⟩

theorem kyc_reject_then_reset_witness :
    ∃ s1, process_kyc_approval wState 1 9 false (some "blurry document") 100 = .ok s1
      ∧ ∃ s2, reset_kyc_for_resubmission s1 (some 5) = .ok s2 := by
  obtain ⟨s1, h1, _, _, _, s2, h5, _⟩ :=
    kyc_reject_then_reset wState 1 9 100 "blurry document" wKycRow wProfile
      rfl rfl rfl (by decide) rfl
  exact ⟨s1, h1, s2, h5⟩

theorem submit_twice_unique_violation_witness :
    ∃ s1, createKYCSubmission { kyc := [], profiles := [], notifications := [] }
        (some 7) wSubmission0 10 1 = .ok s1
      ∧ createKYCSubmission s1 (some 7) wSubmission0 20 2 = .error .uniqueViolation
      ∧ List.countP (fun r => r.user_id == 7) s1.kyc = 1 := by
  obtain ⟨s1, h1, _, h3, h4, _⟩ :=
    submit_twice_unique_violation { kyc := [], profiles := [], notifications := [] } 7
      wSubmission0 10 20 1 2 rfl rfl (by decide)
  exact ⟨s1, h1, h3, h4⟩

theorem otp_pair_invariant_witness :
    StateOtpInv (verify_phone_otp wState 5 "111111" 0).2 :=
  otp_pair_invariant.2.2.2.1 wState 5 "111111" 0
    (by
      intro r hr
      rw [List.mem_singleton.mp hr]
      intro hv
      exact absurd hv (by decide))

theorem otp_provider_fallback_chain_witness :
    sendOtpFallback .networkError (.response true (some "sid1")) =
      ({ status := 200, success := true, provider := some "twilio",
         requestId := some "sid1" }, 1) :=
  otp_provider_fallback_chain.2.1 .networkError (.response true (some "sid1"))
    { requestId := some "sid1" } rfl rfl

theorem phone_validator_contract_witness :
    (validateIndianPhoneNumber "+91 98765-43210".toList).formatted =
      some "+919876543210".toList := by
  have h := (phone_validator_contract "+91 98765-43210".toList).2.1
  rw [h]
  decide

theorem rate_limiter_fails_open_witness :
    checkRateLimit true (.error ()) 12345 =
      { canSend := true, remainingAttempts := 3, resetTime := none, message := none } :=
  rate_limiter_fails_open 12345 ()

end RentHub
